import Mathlib

set_option maxHeartbeats 1000000

/-!
Shallow embedding of the provider / retry core of the prompt-enhancement
MCP server (TypeScript sources under src/).  Pure functions mirror the
source line by line; thrown exceptions become `Except`; JavaScript string
truthiness (`a || b`, `!x`) is modelled explicitly on `Option String`.
-/

deriving instance DecidableEq for Except

/-- JS `a || b` where `a : string | undefined` and `b` is a string:
the empty string and `undefined` are falsy and fall through to `b`. -/
def jsOrStr (a : Option String) (b : String) : String :=
  match a with
  | some s => if s = "" then b else s
  | none => b

/-- JS `a || b` on two `string | undefined` values. -/
def jsOrOpt (a b : Option String) : Option String :=
  match a with
  | some s => if s = "" then b else some s
  | none => b

/-- JS falsiness of a `string | undefined` value (`!x`):
true when the value is `undefined` or the empty string. -/
def strFalsy (a : Option String) : Bool :=
  match a with
  | some s => s == ""
  | none => true

/-- JS `s.includes(sub)`. -/
def strContainsSubstr (s sub : String) : Bool :=
  decide (sub.data <:+: s.data)

/-!
Backoff policy: `withRetry` from `src/providers/base-provider.ts`.

The wrapped asynchronous operation is embedded as a function from the
attempt index to the outcome of that attempt (`fn i` is what the `i`-th
underlying invocation returns or throws).  The run of `withRetry` is
recorded as a `RetryTrace`: the final result, the number of underlying
invocations performed, and the list of backoff delays slept, in order.
-/

/-- The error shape `withRetry` observes: a message plus an optional
HTTP-status-like numeric field (`(error as \x7b status?: number \x7d).status`). -/
structure RunError where
  message : String
  status : Option Nat := none
deriving Repr, DecidableEq

/-- The terminal-error classification of `withRetry`:
`status === 401 || status === 403 || status === 400`. -/
def isTerminal (e : RunError) : Bool :=
  e.status == some 401 || e.status == some 403 || e.status == some 400

/-- Observable outcome of a `withRetry` run: final result, number of
underlying invocations, and backoff delays (ms) slept between attempts. -/
structure RetryTrace (T : Type) where
  result : Except RunError T
  invocations : Nat
  delays : List Nat
deriving Repr

/-- The loop body of `withRetry`, at attempt index `attempt` with
`remaining = maxRetries - attempt` attempts left after the current one.
On success it returns; on a terminal error (status 400/401/403) it
re-raises at once; otherwise, if attempts remain, it sleeps
`baseDelay * 2 ^ attempt` ms and retries, and if none remain it
re-raises the last error. -/
def withRetryFrom {T : Type} (fn : Nat → Except RunError T)
    (baseDelay attempt remaining : Nat) : RetryTrace T :=
  match fn attempt with
  | .ok v => ⟨.ok v, 1, []⟩
  | .error e =>
    if isTerminal e then ⟨.error e, 1, []⟩
    else
      match remaining with
      | 0 => ⟨.error e, 1, []⟩
      | r + 1 =>
        let rest := withRetryFrom fn baseDelay (attempt + 1) r
        ⟨rest.result, rest.invocations + 1, baseDelay * 2 ^ attempt :: rest.delays⟩

/-- Function `withRetry(fn, maxRetries = 3, baseDelay = 1000)` from
`src/providers/base-provider.ts`: attempts run from 0 to `maxRetries`
inclusive. -/
def withRetry {T : Type} (fn : Nat → Except RunError T)
    (maxRetries : Nat := 3) (baseDelay : Nat := 1000) : RetryTrace T :=
  withRetryFrom fn baseDelay 0 maxRetries

example : withRetry (fun _ => (.error ⟨"auth", some 401⟩ : Except RunError Nat)) =
    ⟨.error ⟨"auth", some 401⟩, 1, []⟩ := rfl

example : withRetry (fun _ => (.error ⟨"boom", none⟩ : Except RunError Nat)) =
    ⟨.error ⟨"boom", none⟩, 4, [1000, 2000, 4000]⟩ := rfl

example : withRetry (fun i => if i < 2 then (.error ⟨"t", some 500⟩ : Except RunError Nat) else .ok 7) =
    ⟨.ok 7, 3, [1000, 2000]⟩ := rfl

/-!
Provider configuration and the three provider classes
(`src/types.ts`, `src/providers/*.ts`).
-/

/-- Structure `ProviderConfig` from `src/types.ts`: every field optional. -/
structure ProviderConfig where
  apiKey : Option String := none
  baseUrl : Option String := none
  model : Option String := none
  temperature : Option ℚ := none
  maxTokens : Option Nat := none
deriving Repr, DecidableEq

/-- Outcome of the platform `new URL(s)` constructor as the provider code
observes it: either it throws a `TypeError` (`invalid`) or it yields an
object whose `.protocol` is the scheme with a trailing colon. -/
inductive URLParseResult where
  | invalid
  | parsed (protocol : String)
deriving Repr, DecidableEq

/-- Scheme characters after the first: ASCII alphanumeric, `+`, `-`, `.`. -/
def isSchemeChar (c : Char) : Bool :=
  c.isAlpha || c.isDigit || c == '+' || c == '-' || c == '.'

/-- Concrete model of the platform WHATWG `URL` constructor, reduced to
what the provider code observes: a string parses when it starts with
`scheme ":"` (first character alphabetic, the rest scheme characters),
and then `.protocol` is the lower-cased scheme plus `":"`; anything
without such a scheme prefix throws. Used to instantiate theorems that
hold for an arbitrary parser. -/
def urlParseModel (s : String) : URLParseResult :=
  match s.data.findIdx? (fun c => c == ':') with
  | none => .invalid
  | some i =>
    let scheme := s.data.take i
    match scheme with
    | [] => .invalid
    | c :: rest =>
      if c.isAlpha && rest.all isSchemeChar then
        .parsed (String.mk (scheme.map Char.toLower) ++ ":")
      else .invalid

example : urlParseModel "https://api.example.com/v1" = .parsed "https:" := rfl
example : urlParseModel "http://localhost:11434/v1" = .parsed "http:" := rfl
example : urlParseModel "file:///etc/passwd" = .parsed "file:" := rfl
example : urlParseModel "not-a-url" = .invalid := rfl

/-- The `baseUrl` validation block of the `OpenAiCompatibleProvider`
constructor (`src/providers/openai-compatible.ts`), guarded by JS
truthiness (`if (config.baseUrl)`): an absent or empty `baseUrl` skips
validation entirely; a non-empty one is parsed, a parse failure
(`TypeError`) becomes the not-a-valid-URL error, and a parsed URL whose
protocol is neither `http:` nor `https:` becomes the
disallowed-protocol error. The parser is a parameter since `new URL` is
a platform primitive. -/
def validateBaseUrl (parse : String → URLParseResult) (name : String) :
    Option String → Except String Unit
  | none => .ok ()
  | some u =>
    if u = "" then .ok ()
    else
      match parse u with
      | .invalid => .error ("Invalid baseUrl for provider \"" ++ name ++ "\": not a valid URL")
      | .parsed protocol =>
        if protocol ≠ "http:" && protocol ≠ "https:" then
          .error ("Invalid baseUrl protocol \"" ++ protocol ++ "\" for provider \"" ++ name ++
            "\". Only http: and https: are allowed.")
        else .ok ()

/-- The missing-key error message of the `OpenAiCompatibleProvider`
constructor. -/
def openAiKeyRequiredMsg (name : String) : String :=
  "API key is required for provider \"" ++ name ++ "\". Set the " ++
    (if name = "openai" then "OPENAI_API_KEY" else "OPENROUTER_API_KEY") ++
    " environment variable."

/-- Constructed state of an `OpenAiCompatibleProvider`
(`src/providers/openai-compatible.ts`): the readonly fields plus the
values handed to the `OpenAI` client (`apiKey: config.apiKey || ""`,
`baseURL: config.baseUrl`). -/
structure OpenAiCompatibleProvider where
  name : String
  model : String
  temperature : ℚ
  maxTokens : Nat
  clientApiKey : String
  clientBaseURL : Option String
deriving Repr, DecidableEq

/-- The `OpenAiCompatibleProvider` constructor: field defaults
(`model || "gpt-4o"`, `temperature ?? 0.7`, `maxTokens ?? 4096`), then
`baseUrl` validation, then the named-provider API-key requirement
(`!config.apiKey && (name === "openai" || name === "openrouter")`),
then client construction. A thrown error is the `.error` case. -/
def OpenAiCompatibleProvider.construct (parse : String → URLParseResult)
    (name : String) (config : ProviderConfig) :
    Except String OpenAiCompatibleProvider :=
  match validateBaseUrl parse name config.baseUrl with
  | .error e => .error e
  | .ok _ =>
    if strFalsy config.apiKey && (name == "openai" || name == "openrouter") then
      .error (openAiKeyRequiredMsg name)
    else
      .ok { name := name
            model := jsOrStr config.model "gpt-4o"
            temperature := (config.temperature).getD (7 / 10 : ℚ)
            maxTokens := (config.maxTokens).getD 4096
            clientApiKey := jsOrStr config.apiKey ""
            clientBaseURL := config.baseUrl }

/-- Constructed state of a `GeminiProvider` (`src/providers/gemini.ts`). -/
structure GeminiProvider where
  model : String
  temperature : ℚ
  maxTokens : Nat
  clientApiKey : String
deriving Repr, DecidableEq

/-- The `GeminiProvider` constructor: throws when `config.apiKey` is
falsy, otherwise resolves `model || "gemini-2.0-flash"`,
`temperature ?? 0.7`, `maxTokens ?? 4096` and builds the client. -/
def GeminiProvider.construct (config : ProviderConfig) :
    Except String GeminiProvider :=
  if strFalsy config.apiKey then
    .error "Gemini API key is required"
  else
    .ok { model := jsOrStr config.model "gemini-2.0-flash"
          temperature := (config.temperature).getD (7 / 10 : ℚ)
          maxTokens := (config.maxTokens).getD 4096
          clientApiKey := (config.apiKey).getD "" }

/-- Constructed state of an `AnthropicProvider`
(`src/providers/anthropic.ts`); its constructor never throws. -/
structure AnthropicProvider where
  model : String
  temperature : ℚ
  maxTokens : Nat
  clientApiKey : Option String
deriving Repr, DecidableEq

/-- The `AnthropicProvider` constructor. -/
def AnthropicProvider.construct (config : ProviderConfig) : AnthropicProvider :=
  { model := jsOrStr config.model "claude-sonnet-4-5-20250929"
    temperature := (config.temperature).getD (7 / 10 : ℚ)
    maxTokens := (config.maxTokens).getD 4096
    clientApiKey := config.apiKey }

/-- The `PromptEnhancementProvider` values the factory can return. -/
inductive Provider where
  | anthropic (p : AnthropicProvider)
  | openaiCompat (p : OpenAiCompatibleProvider)
  | gemini (p : GeminiProvider)
deriving Repr, DecidableEq

/-- The readonly `name` field of the constructed provider. -/
def Provider.name : Provider → String
  | .anthropic _ => "anthropic"
  | .openaiCompat p => p.name
  | .gemini _ => "gemini"

/-- The readonly `model` field of the constructed provider. -/
def Provider.model : Provider → String
  | .anthropic p => p.model
  | .openaiCompat p => p.model
  | .gemini p => p.model

/-!
Configuration lookups (`src/config.ts`) and the factory
(`src/providers/index.ts`).

`Record<string, T>` objects become association lists; `process.env`
becomes a function `String → Option String`.
-/

/-- The application `Config` from `src/types.ts` (the `options` object is
flattened into its two optional fields). -/
structure Config where
  defaultProvider : String
  providers : List (String × ProviderConfig) := []
  templates : List (String × String) := []
  maxContextMessages : Option Nat := none
  contextTruncateLength : Option Nat := none
deriving Repr, DecidableEq

/-- Table `ENV_KEY_MAP` from `src/config.ts`. -/
def ENV_KEY_MAP : List (String × String) :=
  [("anthropic", "ANTHROPIC_API_KEY"),
   ("openai", "OPENAI_API_KEY"),
   ("openrouter", "OPENROUTER_API_KEY"),
   ("gemini", "GEMINI_API_KEY"),
   ("openai-compatible", "OPENAI_COMPATIBLE_API_KEY")]

/-- Function `getApiKeyFromEnv` from `src/config.ts`:
`envVar ? process.env[envVar] : undefined`. -/
def getApiKeyFromEnv (env : String → Option String) (providerName : String) :
    Option String :=
  match ENV_KEY_MAP.lookup providerName with
  | some envVar => if envVar = "" then none else env envVar
  | none => none

/-- Table `DEFAULT_MODELS` from `src/config.ts`. -/
def DEFAULT_MODELS : List (String × String) :=
  [("anthropic", "claude-sonnet-4-5-20250929"),
   ("openai", "gpt-4o"),
   ("openrouter", "anthropic/claude-sonnet-4-5-20250929"),
   ("gemini", "gemini-2.0-flash"),
   ("openai-compatible", "gpt-3.5-turbo")]

/-- Function `getDefaultModel` from `src/config.ts`:
`DEFAULT_MODELS[providerName] || "gpt-3.5-turbo"`. -/
def getDefaultModel (providerName : String) : String :=
  jsOrStr (DEFAULT_MODELS.lookup providerName) "gpt-3.5-turbo"

/-- The resolved configuration built at the top of `createProvider`
(`src/providers/index.ts`):
`providerConfig = config.providers?.[name] ?? \x7b\x7d`, then
`apiKey: apiKey || providerConfig.apiKey` with the env key first, and
`model: modelOverride || providerConfig.model || getDefaultModel(name)`. -/
def resolveProviderConfig (env : String → Option String) (name : String)
    (config : Config) (modelOverride : Option String) : ProviderConfig :=
  let providerConfig := ((config.providers).lookup name).getD {}
  let apiKey := getApiKeyFromEnv env name
  { providerConfig with
    apiKey := jsOrOpt apiKey providerConfig.apiKey
    model := some (jsOrStr modelOverride
      (jsOrStr providerConfig.model (getDefaultModel name))) }

/-- The error message of the `default` branch of `createProvider`. -/
def unsupportedProviderMsg (name : String) : String :=
  "Unsupported provider: " ++ name ++
    ". Supported: anthropic, openai, openrouter, gemini, openai-compatible"

/-- Function `createProvider` from `src/providers/index.ts`: resolve the
configuration, then dispatch on the provider name (the `switch`),
injecting the OpenRouter default `baseUrl` for `"openrouter"`. -/
def createProvider (parse : String → URLParseResult)
    (env : String → Option String) (name : String) (config : Config)
    (modelOverride : Option String) : Except String Provider :=
  let resolvedConfig := resolveProviderConfig env name config modelOverride
  if name = "anthropic" then
    .ok (.anthropic (AnthropicProvider.construct resolvedConfig))
  else if name = "openai" then
    (OpenAiCompatibleProvider.construct parse "openai" resolvedConfig).map .openaiCompat
  else if name = "openrouter" then
    (OpenAiCompatibleProvider.construct parse "openrouter"
      { resolvedConfig with
        baseUrl := some (jsOrStr resolvedConfig.baseUrl "https://openrouter.ai/api/v1") }).map
      .openaiCompat
  else if name = "gemini" then
    (GeminiProvider.construct resolvedConfig).map .gemini
  else if name = "openai-compatible" then
    (OpenAiCompatibleProvider.construct parse "openai-compatible" resolvedConfig).map .openaiCompat
  else
    .error (unsupportedProviderMsg name)

/-- The closed set of provider names accepted by the factory. -/
def validProviderNames : List String :=
  ["anthropic", "openai", "openrouter", "gemini", "openai-compatible"]

example :
    createProvider urlParseModel (fun v => if v = "OPENAI_API_KEY" then some "sk" else none)
      "openai" { defaultProvider := "anthropic" } (some "gpt-4-turbo") =
    .ok (.openaiCompat ⟨"openai", "gpt-4-turbo", 7 / 10, 4096, "sk", none⟩) := rfl

example :
    createProvider urlParseModel (fun _ => some "k") "openrouter"
      { defaultProvider := "anthropic" } none =
    .ok (.openaiCompat ⟨"openrouter", "anthropic/claude-sonnet-4-5-20250929", 7 / 10, 4096,
      "k", some "https://openrouter.ai/api/v1"⟩) := rfl

/-!
Enhancement service (`src/services/enhancement-service.ts`).

`String.prototype.replace` with a string pattern replaces only the first
occurrence and interprets `$`-patterns in the replacement
(`$$`, `$&`, dollar-backquote, dollar-quote); both behaviours are
modelled below.  The provider's network call is a parameter
(`complete`), so that theorems quantifying over it capture
independence from the backend.
-/

/-- Structure `ContextMessage` from `src/types.ts`. -/
structure ContextMessage where
  role : String
  content : String
deriving Repr, DecidableEq

/-- JS `arr.slice(-n)`: the last `n` elements, the whole array when
`n = 0` (since `slice(-0)` is `slice(0)`). -/
def jsSliceLast {α : Type} (n : Nat) (l : List α) : List α :=
  if n = 0 then l else l.drop (l.length - n)

/-- Method `EnhancementService.prepareInput`: with no context the text passes
through; otherwise the last `maxContextMessages` messages are rendered
(contents over `contextTruncateLength` characters truncated with an
ellipsis) and appended after the text. -/
def prepareInput (config : Config) (text : String)
    (context : Option (List ContextMessage)) : String :=
  match context with
  | none => text
  | some ctx =>
    if ctx.length = 0 then text
    else
      let maxMessages := (config.maxContextMessages).getD 10
      let truncateLength := (config.contextTruncateLength).getD 500
      let contextStr := String.intercalate "\n"
        ((jsSliceLast maxMessages ctx).map (fun msg =>
          let content :=
            if msg.content.length > truncateLength then
              String.mk (msg.content.data.take truncateLength) ++ "..."
            else msg.content
          msg.role ++ ": " ++ content))
      text ++ "\n\nUse the following previous conversation context as needed:\n" ++ contextStr

/-- The `$\x7buserInput\x7d` placeholder string. -/
def USER_INPUT_PLACEHOLDER : String := "$\x7buserInput\x7d"

/-- Constant `DEFAULT_ENHANCE_TEMPLATE` from
`src/services/enhancement-service.ts`. -/
def DEFAULT_ENHANCE_TEMPLATE : String :=
  "Generate an enhanced version of this prompt (reply with only the enhanced prompt - no conversation, explanations, lead-in, bullet points, placeholders, or surrounding quotes):\n\n$\x7buserInput\x7d"

/-- The replacement-string interpretation of JS `String.replace`
(ECMA-262 GetSubstitution) for a string pattern, which has no capture
groups: `$$` is a literal dollar, `$&` the matched substring,
dollar-backquote the part before the match, dollar-quote the part
after it; every other character, and a `$` not followed by one of
these, is literal. -/
def jsGetSubstitution (matched before after : List Char) :
    List Char → List Char
  | [] => []
  | c :: rest =>
    if c = '$' then
      match rest with
      | [] => ['$']
      | d :: rest2 =>
        if d = '$' then '$' :: jsGetSubstitution matched before after rest2
        else if d = '&' then matched ++ jsGetSubstitution matched before after rest2
        else if d = Char.ofNat 96 then before ++ jsGetSubstitution matched before after rest2
        else if d = Char.ofNat 39 then after ++ jsGetSubstitution matched before after rest2
        else c :: jsGetSubstitution matched before after (d :: rest2)
    else c :: jsGetSubstitution matched before after rest

/-- The scan of JS `s.replace(pat, rep)` over the character list `s`,
carrying the full subject `full` and the current position `pos`: at the
first position where `pat` is a prefix, substitute `rep` (via
`jsGetSubstitution`) and keep the rest; when no occurrence exists the
subject is returned unchanged. -/
def jsReplaceFirstAux (pat rep full : List Char) :
    List Char → Nat → List Char
  | s, pos =>
    if pat <+: s then
      jsGetSubstitution pat (full.take pos) (full.drop (pos + pat.length)) rep
        ++ s.drop pat.length
    else
      match s with
      | [] => []
      | c :: rest => c :: jsReplaceFirstAux pat rep full rest (pos + 1)

/-- JS `s.replace(pat, rep)` with a string pattern: first occurrence
only. -/
def jsReplaceFirst (s pat rep : String) : String :=
  String.mk (jsReplaceFirstAux pat.data rep.data s.data s.data 0)

example : jsReplaceFirst "a X b X c" "X" "Y" = "a Y b Y c" → False := by decide
example : jsReplaceFirst "a X b X c" "X" "Y" = "a Y b X c" := by decide
example : jsReplaceFirst "a X b" "X" "[$&]" = "a [X] b" := by decide
example : jsReplaceFirst "no match" "X" "Y" = "no match" := by decide

/-- Structure `EnhanceOptions` from `src/types.ts`. -/
structure EnhanceOptions where
  text : String
  context : Option (List ContextMessage) := none
  provider : Option String := none
  model : Option String := none
  template : Option String := none
deriving Repr, DecidableEq

/-- Structure `EnhanceResult` from `src/types.ts`. -/
structure EnhanceResult where
  success : Bool
  enhancedText : String
  provider : String
  model : String
deriving Repr, DecidableEq

/-- The template-validation error message of `EnhancementService.enhance`. -/
def templateErrorMsg : String :=
  "Template must contain the $\x7buserInput\x7d placeholder"

/-- Method `EnhancementService.enhance`: prepare the input, pick the effective
template (`options.template || config.templates?.default ||
DEFAULT_ENHANCE_TEMPLATE`), require the placeholder, substitute the
prepared input for its first occurrence, resolve the provider by name
(`options.provider || config.defaultProvider`) through `createProvider`,
and invoke `completePrompt` (the `complete` parameter, since the real
call is a network round-trip). -/
def EnhancementService.enhance (parse : String → URLParseResult)
    (env : String → Option String)
    (complete : Provider → String → Except String String)
    (config : Config) (options : EnhanceOptions) : Except String EnhanceResult :=
  let input := prepareInput config options.text options.context
  let templateStr := jsOrStr options.template
    (jsOrStr ((config.templates).lookup "default") DEFAULT_ENHANCE_TEMPLATE)
  if !strContainsSubstr templateStr USER_INPUT_PLACEHOLDER then
    .error templateErrorMsg
  else
    let prompt := jsReplaceFirst templateStr USER_INPUT_PLACEHOLDER input
    let providerName := jsOrStr options.provider config.defaultProvider
    match createProvider parse env providerName config options.model with
    | .error e => .error e
    | .ok provider =>
      match complete provider prompt with
      | .error e => .error e
      | .ok enhanced =>
        .ok { success := true
              enhancedText := enhanced
              provider := provider.name
              model := provider.model }

example :
    EnhancementService.enhance urlParseModel (fun _ => none)
      (fun _ p => .ok p) { defaultProvider := "anthropic" }
      { text := "hi", template := some "no placeholder" } =
    .error templateErrorMsg := by decide

example :
    EnhancementService.enhance urlParseModel (fun _ => none)
      (fun _ p => .ok p) { defaultProvider := "anthropic" }
      { text := "hi", template := some "A $\x7buserInput\x7d B" } =
    .ok ⟨true, "A hi B", "anthropic", "claude-sonnet-4-5-20250929"⟩ := by decide

/-!
Shared lemmas.
-/

/-- Run of the retry loop when attempts `attempt, …, attempt + k - 1`
fail with non-terminal errors and attempt `attempt + k` fails with a
terminal one: the terminal error is re-raised at once, after `k + 1`
invocations and only the `k` backoff sleeps that preceded it. -/
theorem withRetryFrom_terminal_run {T : Type} (fn : Nat → Except RunError T)
    (baseDelay : Nat) (e : RunError) (hterm : isTerminal e = true) :
    ∀ (k attempt remaining : Nat), k ≤ remaining →
    (∀ i, i < k → ∃ ei, fn (attempt + i) = .error ei ∧ isTerminal ei = false) →
    fn (attempt + k) = .error e →
    withRetryFrom fn baseDelay attempt remaining =
      ⟨.error e, k + 1, (List.range k).map (fun i => baseDelay * 2 ^ (attempt + i))⟩ := by
  intro k
  induction k with
  | zero =>
    intro attempt remaining _ _ hfn
    rw [Nat.add_zero] at hfn
    simp [withRetryFrom, hfn, hterm]
  | succ k ih =>
    intro attempt remaining hk hpre hfn
    obtain ⟨e0, he0, ht0⟩ := hpre 0 (Nat.succ_pos k)
    rw [Nat.add_zero] at he0
    obtain ⟨r, rfl⟩ : ∃ r, remaining = r + 1 :=
      ⟨remaining - 1, by omega⟩
    have hrest := ih (attempt + 1) r (by omega)
      (fun i hi => by
        obtain ⟨ei, hei, hti⟩ := hpre (i + 1) (by omega)
        exact ⟨ei, by rw [show attempt + 1 + i = attempt + (i + 1) by omega]; exact hei, hti⟩)
      (by rw [show attempt + 1 + k = attempt + (k + 1) by omega]; exact hfn)
    simp only [withRetryFrom, he0, ht0, Bool.false_eq_true, if_false, hrest]
    refine congrArg _ ?_
    rw [List.range_succ_eq_map, List.map_cons, List.map_map]
    refine congrArg₂ _ (by rw [Nat.add_zero]) (List.map_congr_left ?_)
    intro i _
    simp only [Function.comp_apply, Nat.succ_eq_add_one]
    congr 2
    omega

/-- Mapping with `Except.map` hits `.ok` only from an `.ok`. -/
theorem except_map_eq_ok {ε α β : Type} {f : α → β} {x : Except ε α} {b : β}
    (h : x.map f = .ok b) : ∃ a, x = .ok a ∧ f a = b := by
  cases x with
  | error e => cases h
  | ok a => exact ⟨a, rfl, Except.ok.inj h⟩

/-- Mapping with `Except.map` hits `.error` only from the same `.error`. -/
theorem except_map_eq_error {ε α β : Type} {f : α → β} {x : Except ε α} {e : ε}
    (h : x.map f = .error e) : x = .error e := by
  cases x with
  | error e2 => cases h; rfl
  | ok a => cases h

/-- A successful `OpenAiCompatibleProvider` construction yields exactly
the record the constructor builds; in particular the client `baseURL`
is the configured one, unchanged. -/
theorem OpenAiCompatibleProvider.construct_ok {parse : String → URLParseResult}
    {name : String} {cfg : ProviderConfig} {q : OpenAiCompatibleProvider}
    (h : OpenAiCompatibleProvider.construct parse name cfg = .ok q) :
    q = ⟨name, jsOrStr cfg.model "gpt-4o", (cfg.temperature).getD (7 / 10),
      (cfg.maxTokens).getD 4096, jsOrStr cfg.apiKey "", cfg.baseUrl⟩ := by
  unfold OpenAiCompatibleProvider.construct at h
  split at h
  · cases h
  · split at h
    · cases h
    · exact (Except.ok.inj h).symm

/-- String `++` concatenates the underlying character lists. -/
theorem str_data_append (s t : String) : (s ++ t).data = s.data ++ t.data := rfl

/-- A nonempty prefix forces the same head. -/
theorem prefix_head_eq {l₁ l₂ : List Char} (h : l₁ <+: l₂) (hne : l₁ ≠ []) :
    l₂.head? = l₁.head? := by
  obtain ⟨t, rfl⟩ := h
  cases l₁ with
  | nil => exact absurd rfl hne
  | cons a l => rfl

/-- Any error thrown by the `OpenAiCompatibleProvider` constructor starts
with the letter of one of its two message families (`Invalid baseUrl…` or
`API key is required…`). -/
theorem OpenAiCompatibleProvider.construct_error_head
    {parse : String → URLParseResult} {name : String} {cfg : ProviderConfig}
    {m : String} (h : OpenAiCompatibleProvider.construct parse name cfg = .error m) :
    m.data.head? = some 'I' ∨ m.data.head? = some 'A' := by
  unfold OpenAiCompatibleProvider.construct at h
  split at h
  case _ e heq =>
    have hm : e = m := Except.error.inj h
    subst hm
    revert heq
    unfold validateBaseUrl
    split
    · intro heq; cases heq
    case _ u =>
      split
      · intro heq; cases heq
      · split
        · intro heq
          left
          rw [← Except.error.inj heq, str_data_append, str_data_append]
          rfl
        · split
          · intro heq
            left
            rw [← Except.error.inj heq, str_data_append, str_data_append,
              str_data_append, str_data_append]
            rfl
          · intro heq; cases heq
  · split at h
    · right
      rw [← Except.error.inj h]
      unfold openAiKeyRequiredMsg
      rw [str_data_append, str_data_append, str_data_append]
      rfl
    · cases h

/-- The factory branch for an unknown provider name. -/
theorem createProvider_unknown (parse : String → URLParseResult)
    (env : String → Option String) (name : String) (config : Config)
    (modelOverride : Option String) (h : name ∉ validProviderNames) :
    createProvider parse env name config modelOverride =
      .error (unsupportedProviderMsg name) := by
  simp only [validProviderNames, List.mem_cons, List.not_mem_nil, or_false,
    not_or] at h
  obtain ⟨h1, h2, h3, h4, h5⟩ := h
  simp [createProvider, h1, h2, h3, h4, h5]

/-- Each valid provider name occurs in the tail of the unsupported-name
message. -/
theorem valid_names_in_supported_list :
    ∀ v ∈ validProviderNames,
      v.data <:+:
        (". Supported: anthropic, openai, openrouter, gemini, openai-compatible" : String).data := by
  decide

/-!
Claims.
-/

/-- C1: if an attempt of a `withRetry`-wrapped operation fails with an
error whose status field is 400, 401, or 403, that error is re-raised
immediately after that single invocation — no further attempts and no
backoff delay after it, whatever `maxRetries` and `baseDelay` are (the
only delays are the ones that preceded earlier non-terminal failures). -/
theorem withRetry_terminal_raises_immediately {T : Type}
    (fn : Nat → Except RunError T) (maxRetries baseDelay k : Nat) (e : RunError)
    (hk : k ≤ maxRetries)
    (hpre : ∀ i, i < k → ∃ ei, fn i = .error ei ∧ isTerminal ei = false)
    (hfn : fn k = .error e) (hterm : isTerminal e = true) :
    withRetry fn maxRetries baseDelay =
      ⟨.error e, k + 1, (List.range k).map (fun a => baseDelay * 2 ^ a)⟩ := by
  have := withRetryFrom_terminal_run fn baseDelay e hterm k 0 maxRetries hk
    (fun i hi => by simpa using hpre i hi) (by simpa using hfn)
  simpa [withRetry] using this

/-- Witness for C1: an operation whose first call fails with status 401
raises after exactly one invocation and no delay. -/
theorem withRetry_terminal_raises_immediately_witness :
    (0 : Nat) ≤ 3 ∧ isTerminal ⟨"Unauthorized", some 401⟩ = true ∧
    withRetry (fun _ => (.error ⟨"Unauthorized", some 401⟩ : Except RunError Nat)) =
      ⟨.error ⟨"Unauthorized", some 401⟩, 1, []⟩ :=
  ⟨by decide, rfl,
    withRetry_terminal_raises_immediately
      (fun _ => (.error ⟨"Unauthorized", some 401⟩ : Except RunError Nat))
      3 1000 0 ⟨"Unauthorized", some 401⟩ (by decide)
      (fun i hi => absurd hi (by omega)) rfl rfl⟩

/-- C2: an operation failing on every invocation with non-terminal
errors, wrapped with the default parameters, is invoked exactly 4 times
(1 initial + 3 retries), with sleeps of 1000, 2000, 4000 ms between
consecutive attempts, and the error of the 4th invocation is re-raised. -/
theorem withRetry_default_budget_exhaustion {T : Type}
    (fn : Nat → Except RunError T) (e0 e1 e2 e3 : RunError)
    (h0 : fn 0 = .error e0) (h1 : fn 1 = .error e1)
    (h2 : fn 2 = .error e2) (h3 : fn 3 = .error e3)
    (t0 : isTerminal e0 = false) (t1 : isTerminal e1 = false)
    (t2 : isTerminal e2 = false) (t3 : isTerminal e3 = false) :
    withRetry fn = ⟨.error e3, 4, [1000, 2000, 4000]⟩ := by
  simp only [withRetry, withRetryFrom, h0, h1, h2, h3, t0, t1, t2, t3,
    Bool.false_eq_true, if_false]
  norm_num

/-- Witness for C2: an always-failing operation with no status field is
invoked 4 times with delays 1000, 2000, 4000 ms. -/
theorem withRetry_default_budget_exhaustion_witness :
    isTerminal ⟨"boom", none⟩ = false ∧
    withRetry (fun _ => (.error ⟨"boom", none⟩ : Except RunError Nat)) =
      ⟨.error ⟨"boom", none⟩, 4, [1000, 2000, 4000]⟩ :=
  ⟨rfl, withRetry_default_budget_exhaustion
    (fun _ => (.error ⟨"boom", none⟩ : Except RunError Nat))
    _ _ _ _ rfl rfl rfl rfl rfl rfl rfl rfl⟩

/-- Counterexample to C3 as stated: the empty string is not a
syntactically valid URL (the model parser rejects it, just as
`new URL("")` throws), yet construction with `baseUrl = ""` succeeds —
the source guard `if (config.baseUrl)` is JS truthiness and skips
validation for the empty string instead of throwing. -/
theorem openAiCompatible_empty_baseUrl_not_rejected :
    urlParseModel "" = .invalid ∧
    OpenAiCompatibleProvider.construct urlParseModel "openai-compatible"
      { apiKey := some "k", baseUrl := some "" } =
      .ok ⟨"openai-compatible", "gpt-4o", 7 / 10, 4096, "k", some ""⟩ :=
  ⟨rfl, rfl⟩

/-- C3 amended: constructing an `OpenAiCompatibleProvider` with a
non-empty `baseUrl` that does not parse as a URL throws the
not-a-valid-URL error; with a non-empty `baseUrl` whose protocol is
neither `http:` nor `https:` it throws the disallowed-protocol error;
with no `baseUrl`, an empty one (skipped by the JS truthiness guard),
or an `http:`/`https:` one, the only error construction can throw is
the missing-API-key one — for every URL parser, provider name and
configuration. -/
theorem openAiCompatible_endpoint_validation
    (parse : String → URLParseResult) (name : String) (cfg : ProviderConfig) :
    (∀ u, cfg.baseUrl = some u → u ≠ "" → parse u = .invalid →
      OpenAiCompatibleProvider.construct parse name cfg =
        .error ("Invalid baseUrl for provider \"" ++ name ++ "\": not a valid URL")) ∧
    (∀ u p, cfg.baseUrl = some u → u ≠ "" → parse u = .parsed p →
      p ≠ "http:" → p ≠ "https:" →
      OpenAiCompatibleProvider.construct parse name cfg =
        .error ("Invalid baseUrl protocol \"" ++ p ++ "\" for provider \"" ++ name ++
          "\". Only http: and https: are allowed.")) ∧
    ((cfg.baseUrl = none ∨ cfg.baseUrl = some "") →
      ∀ m, OpenAiCompatibleProvider.construct parse name cfg = .error m →
        m = openAiKeyRequiredMsg name) ∧
    (∀ u p, cfg.baseUrl = some u → parse u = .parsed p →
      (p = "http:" ∨ p = "https:") →
      ∀ m, OpenAiCompatibleProvider.construct parse name cfg = .error m →
        m = openAiKeyRequiredMsg name) := by
  refine ⟨?_, ?_, ?_, ?_⟩
  · intro u hu hune hp
    simp [OpenAiCompatibleProvider.construct, validateBaseUrl, hu, hune, hp]
  · intro u p hu hune hp hph hphs
    simp [OpenAiCompatibleProvider.construct, validateBaseUrl, hu, hune, hp,
      hph, hphs]
  · intro h m
    have hval : validateBaseUrl parse name cfg.baseUrl = .ok () := by
      rcases h with h | h <;> simp [validateBaseUrl, h]
    simp only [OpenAiCompatibleProvider.construct, hval]
    split
    · intro hm
      exact (Except.error.inj hm).symm
    · intro hm
      cases hm
  · intro u p hu hp hor m
    have hval : validateBaseUrl parse name cfg.baseUrl = .ok () := by
      rcases eq_or_ne u "" with he | he
      · simp [validateBaseUrl, hu, he]
      · rcases hor with h | h <;> simp [validateBaseUrl, hu, he, hp, h]
    simp only [OpenAiCompatibleProvider.construct, hval]
    split
    · intro hm
      exact (Except.error.inj hm).symm
    · intro hm
      cases hm

/-- Witness for C3 (amended): concrete rejections of a malformed
endpoint and of a file-scheme endpoint, and key-error-only outcomes for
an absent, an empty, and a valid https endpoint. -/
theorem openAiCompatible_endpoint_validation_witness :
    urlParseModel "not-a-url" = .invalid ∧
    urlParseModel "file:///etc/passwd" = .parsed "file:" ∧
    OpenAiCompatibleProvider.construct urlParseModel "openai-compatible"
      { baseUrl := some "not-a-url" } =
      .error "Invalid baseUrl for provider \"openai-compatible\": not a valid URL" ∧
    OpenAiCompatibleProvider.construct urlParseModel "openai-compatible"
      { baseUrl := some "file:///etc/passwd" } =
      .error "Invalid baseUrl protocol \"file:\" for provider \"openai-compatible\". Only http: and https: are allowed." ∧
    OpenAiCompatibleProvider.construct urlParseModel "openai-compatible"
      { apiKey := some "k", baseUrl := some "https://api.example.com/v1" } =
      .ok ⟨"openai-compatible", "gpt-4o", 7 / 10, 4096, "k", some "https://api.example.com/v1"⟩ ∧
    OpenAiCompatibleProvider.construct urlParseModel "openai-compatible"
      { apiKey := some "k", baseUrl := some "" } =
      .ok ⟨"openai-compatible", "gpt-4o", 7 / 10, 4096, "k", some ""⟩ ∧
    OpenAiCompatibleProvider.construct urlParseModel "openai-compatible" {} =
      .ok ⟨"openai-compatible", "gpt-4o", 7 / 10, 4096, "", none⟩ :=
  ⟨rfl, rfl,
    (openAiCompatible_endpoint_validation urlParseModel "openai-compatible"
      { baseUrl := some "not-a-url" }).1 "not-a-url" rfl (by decide) rfl,
    (openAiCompatible_endpoint_validation urlParseModel "openai-compatible"
      { baseUrl := some "file:///etc/passwd" }).2.1 "file:///etc/passwd" "file:"
      rfl (by decide) rfl (by decide) (by decide),
    rfl, rfl, rfl⟩

/-- C4: under the names `"openai"` and `"openrouter"`, a falsy API key
makes `OpenAiCompatibleProvider` construction throw the message naming
the provider and its environment variable (once the endpoint check
passes); under `"openai-compatible"` the same falsy key constructs
successfully. The two literal messages are spelled out. -/
theorem openAiCompatible_key_requirement (parse : String → URLParseResult)
    (cfg : ProviderConfig) :
    (validateBaseUrl parse "openai" cfg.baseUrl = .ok () →
      strFalsy cfg.apiKey = true →
      OpenAiCompatibleProvider.construct parse "openai" cfg =
        .error (openAiKeyRequiredMsg "openai")) ∧
    (validateBaseUrl parse "openrouter" cfg.baseUrl = .ok () →
      strFalsy cfg.apiKey = true →
      OpenAiCompatibleProvider.construct parse "openrouter" cfg =
        .error (openAiKeyRequiredMsg "openrouter")) ∧
    (validateBaseUrl parse "openai-compatible" cfg.baseUrl = .ok () →
      strFalsy cfg.apiKey = true →
      ∃ p, OpenAiCompatibleProvider.construct parse "openai-compatible" cfg = .ok p) ∧
    openAiKeyRequiredMsg "openai" =
      "API key is required for provider \"openai\". Set the OPENAI_API_KEY environment variable." ∧
    openAiKeyRequiredMsg "openrouter" =
      "API key is required for provider \"openrouter\". Set the OPENROUTER_API_KEY environment variable." := by
  refine ⟨?_, ?_, ?_, by decide, by decide⟩
  · intro hval hkey
    simp [OpenAiCompatibleProvider.construct, hval, hkey]
  · intro hval hkey
    simp [OpenAiCompatibleProvider.construct, hval, hkey]
  · intro hval hkey
    simp [OpenAiCompatibleProvider.construct, hval, hkey]

/-- Witness for C4: with no key at all, `"openai"` and `"openrouter"`
constructions throw their respective messages and `"openai-compatible"`
construction succeeds. -/
theorem openAiCompatible_key_requirement_witness :
    validateBaseUrl urlParseModel "openai" none = .ok () ∧
    strFalsy (none : Option String) = true ∧
    OpenAiCompatibleProvider.construct urlParseModel "openai" {} =
      .error "API key is required for provider \"openai\". Set the OPENAI_API_KEY environment variable." ∧
    OpenAiCompatibleProvider.construct urlParseModel "openrouter" {} =
      .error "API key is required for provider \"openrouter\". Set the OPENROUTER_API_KEY environment variable." ∧
    ∃ p, OpenAiCompatibleProvider.construct urlParseModel "openai-compatible" {} = .ok p :=
  ⟨rfl, rfl,
    ((openAiCompatible_key_requirement urlParseModel {}).1 rfl rfl).trans (by decide),
    ((openAiCompatible_key_requirement urlParseModel {}).2.1 rfl rfl).trans (by decide),
    (openAiCompatible_key_requirement urlParseModel {}).2.2.1 rfl rfl⟩

/-- C8: `GeminiProvider` construction throws when the API key is absent
or empty (so no instance exists and `completePrompt` is unreachable);
with a non-empty key it succeeds, and the model resolves to
`"gemini-2.0-flash"` when none is configured. -/
theorem gemini_key_required_at_construction (cfg : ProviderConfig) :
    (strFalsy cfg.apiKey = true →
      GeminiProvider.construct cfg = .error "Gemini API key is required") ∧
    (∀ k, cfg.apiKey = some k → k ≠ "" →
      ∃ p, GeminiProvider.construct cfg = .ok p ∧
        (cfg.model = none → p.model = "gemini-2.0-flash")) := by
  constructor
  · intro h
    simp [GeminiProvider.construct, h]
  · intro k hk hkne
    have hfalsy : strFalsy cfg.apiKey = false := by
      simp [strFalsy, hk, hkne]
    refine ⟨⟨jsOrStr cfg.model "gemini-2.0-flash", (cfg.temperature).getD (7 / 10),
      (cfg.maxTokens).getD 4096, (cfg.apiKey).getD ""⟩, ?_, ?_⟩
    · simp [GeminiProvider.construct, hfalsy]
    · intro hm
      simp [jsOrStr, hm]

/-- Witness for C8: no key and empty key both throw; the key `"k"` with
no configured model yields the default `"gemini-2.0-flash"`. -/
theorem gemini_key_required_at_construction_witness :
    strFalsy (none : Option String) = true ∧
    strFalsy (some "") = true ∧
    GeminiProvider.construct {} = .error "Gemini API key is required" ∧
    GeminiProvider.construct { apiKey := some "" } = .error "Gemini API key is required" ∧
    ∃ p, GeminiProvider.construct { apiKey := some "k" } = .ok p ∧
      p.model = "gemini-2.0-flash" :=
  ⟨rfl, rfl,
    (gemini_key_required_at_construction {}).1 rfl,
    (gemini_key_required_at_construction { apiKey := some "" }).1 rfl,
    by
      obtain ⟨p, hp, hm⟩ :=
        (gemini_key_required_at_construction { apiKey := some "k" }).2 "k" rfl
          (by decide)
      exact ⟨p, hp, hm rfl⟩⟩

/-- C6: field resolution in the factory — the API key is the
environment-sourced value when that is present (truthy), else the stored
per-backend value; the model is the call-time override when present,
else the stored value, else the compiled-in per-backend default; and in
particular resolving `"openai"` with no stored config and override
`"gpt-4-turbo"` yields a backend whose model is `"gpt-4-turbo"`,
whatever URL parser is used. -/
theorem resolveProviderConfig_precedence (env : String → Option String)
    (name : String) (config : Config) (modelOverride : Option String) :
    (∀ k, getApiKeyFromEnv env name = some k → k ≠ "" →
      (resolveProviderConfig env name config modelOverride).apiKey = some k) ∧
    ((getApiKeyFromEnv env name = none ∨ getApiKeyFromEnv env name = some "") →
      (resolveProviderConfig env name config modelOverride).apiKey =
        (((config.providers).lookup name).getD {}).apiKey) ∧
    (∀ m, modelOverride = some m → m ≠ "" →
      (resolveProviderConfig env name config modelOverride).model = some m) ∧
    ((modelOverride = none ∨ modelOverride = some "") →
      ∀ m, (((config.providers).lookup name).getD {}).model = some m → m ≠ "" →
        (resolveProviderConfig env name config modelOverride).model = some m) ∧
    ((modelOverride = none ∨ modelOverride = some "") →
      ((((config.providers).lookup name).getD {}).model = none ∨
        (((config.providers).lookup name).getD {}).model = some "") →
      (resolveProviderConfig env name config modelOverride).model =
        some (getDefaultModel name)) ∧
    (∀ parse, createProvider parse
        (fun v => if v = "OPENAI_API_KEY" then some "sk" else none) "openai"
        { defaultProvider := "anthropic" } (some "gpt-4-turbo") =
      .ok (.openaiCompat ⟨"openai", "gpt-4-turbo", 7 / 10, 4096, "sk", none⟩)) := by
  refine ⟨?_, ?_, ?_, ?_, ?_, fun parse => rfl⟩
  · intro k hk hkne
    simp [resolveProviderConfig, jsOrOpt, hk, hkne]
  · intro h
    rcases h with h | h <;> simp [resolveProviderConfig, jsOrOpt, h]
  · intro m hm hmne
    simp [resolveProviderConfig, jsOrStr, hm, hmne]
  · intro ho m hm hmne
    rcases ho with ho | ho <;>
      simp [resolveProviderConfig, jsOrStr, ho, hm, hmne]
  · intro ho hs
    rcases ho with ho | ho <;> rcases hs with hs | hs <;>
      simp [resolveProviderConfig, jsOrStr, ho, hs]

/-- Witness for C6: concrete resolutions exercising each precedence
case — env key over stored key, stored key when the env is silent,
override over stored model, stored model when no override, compiled-in
default when neither is set, and the `"gpt-4-turbo"` scenario. -/
theorem resolveProviderConfig_precedence_witness :
    (resolveProviderConfig (fun _ => some "ek") "gemini"
      { defaultProvider := "anthropic",
        providers := [("gemini", { apiKey := some "ck", model := some "m1" })] }
      (some "m2")).apiKey = some "ek" ∧
    (resolveProviderConfig (fun _ => none) "gemini"
      { defaultProvider := "anthropic",
        providers := [("gemini", { apiKey := some "ck", model := some "m1" })] }
      (some "m2")).apiKey = some "ck" ∧
    (resolveProviderConfig (fun _ => none) "gemini"
      { defaultProvider := "anthropic",
        providers := [("gemini", { apiKey := some "ck", model := some "m1" })] }
      (some "m2")).model = some "m2" ∧
    (resolveProviderConfig (fun _ => none) "gemini"
      { defaultProvider := "anthropic",
        providers := [("gemini", { apiKey := some "ck", model := some "m1" })] }
      none).model = some "m1" ∧
    (resolveProviderConfig (fun _ => none) "gemini"
      { defaultProvider := "anthropic" } none).model = some "gemini-2.0-flash" ∧
    createProvider urlParseModel
      (fun v => if v = "OPENAI_API_KEY" then some "sk" else none) "openai"
      { defaultProvider := "anthropic" } (some "gpt-4-turbo") =
      .ok (.openaiCompat ⟨"openai", "gpt-4-turbo", 7 / 10, 4096, "sk", none⟩) := by
  refine ⟨?_, ?_, ?_, ?_, ?_, ?_⟩
  · exact (resolveProviderConfig_precedence (fun _ => some "ek") "gemini"
      { defaultProvider := "anthropic",
        providers := [("gemini", { apiKey := some "ck", model := some "m1" })] }
      (some "m2")).1 "ek" rfl (by decide)
  · exact (resolveProviderConfig_precedence (fun _ => none) "gemini"
      { defaultProvider := "anthropic",
        providers := [("gemini", { apiKey := some "ck", model := some "m1" })] }
      (some "m2")).2.1 (Or.inl rfl)
  · exact (resolveProviderConfig_precedence (fun _ => none) "gemini"
      { defaultProvider := "anthropic",
        providers := [("gemini", { apiKey := some "ck", model := some "m1" })] }
      (some "m2")).2.2.1 "m2" rfl (by decide)
  · exact (resolveProviderConfig_precedence (fun _ => none) "gemini"
      { defaultProvider := "anthropic",
        providers := [("gemini", { apiKey := some "ck", model := some "m1" })] }
      none).2.2.2.1 (Or.inl rfl) "m1" rfl (by decide)
  · exact (resolveProviderConfig_precedence (fun _ => none) "gemini"
      { defaultProvider := "anthropic" } none).2.2.2.2.1 (Or.inl rfl) (Or.inl rfl)
  · exact (resolveProviderConfig_precedence (fun _ => none) "openai"
      { defaultProvider := "anthropic" } none).2.2.2.2.2 urlParseModel

/-- C7: for a name outside the five known identifiers the factory throws
the unsupported-provider error, whose message contains both the
offending name and every one of the five valid identifiers; for a name
inside the set no thrown error is the unsupported-provider one (its
message never starts with "Unsupported provider"), and with keys
available from the environment a backend is in fact returned. -/
theorem createProvider_unsupported_names
    (parse : String → URLParseResult) (env : String → Option String)
    (name : String) (config : Config) (modelOverride : Option String) :
    (name ∉ validProviderNames →
      createProvider parse env name config modelOverride =
        .error (unsupportedProviderMsg name) ∧
      name.data <:+: (unsupportedProviderMsg name).data ∧
      ∀ v ∈ validProviderNames, v.data <:+: (unsupportedProviderMsg name).data) ∧
    (name ∈ validProviderNames →
      (∀ m, createProvider parse env name config modelOverride = .error m →
        ¬ (("Unsupported provider" : String).data <+: m.data)) ∧
      ∃ p, createProvider urlParseModel (fun _ => some "k") name
        { defaultProvider := "anthropic" } none = .ok p) := by
  constructor
  · intro h
    refine ⟨createProvider_unknown parse env name config modelOverride h, ?_, ?_⟩
    · exact ⟨("Unsupported provider: " : String).data,
        (". Supported: anthropic, openai, openrouter, gemini, openai-compatible" : String).data,
        by rw [unsupportedProviderMsg, str_data_append, str_data_append,
          List.append_assoc]⟩
    · intro v hv
      refine (valid_names_in_supported_list v hv).trans ?_
      exact ⟨("Unsupported provider: " : String).data ++ name.data, [],
        by rw [unsupportedProviderMsg, str_data_append, str_data_append,
          List.append_nil, List.append_assoc]⟩
  · intro h
    simp only [validProviderNames, List.mem_cons, List.not_mem_nil, or_false] at h
    constructor
    · intro m hm hpre
      have hhead := prefix_head_eq hpre (by decide)
      have hheadU : m.data.head? = some 'U' := by
        rw [hhead]; rfl
      rcases h with rfl | rfl | rfl | rfl | rfl
      · cases hm
      · have := OpenAiCompatibleProvider.construct_error_head
          (except_map_eq_error hm)
        rw [hheadU] at this
        rcases this with h2 | h2 <;> exact absurd (Option.some.inj h2) (by decide)
      · have := OpenAiCompatibleProvider.construct_error_head
          (except_map_eq_error hm)
        rw [hheadU] at this
        rcases this with h2 | h2 <;> exact absurd (Option.some.inj h2) (by decide)
      · have hg := except_map_eq_error hm
        revert hg
        unfold GeminiProvider.construct
        split
        · intro hg
          have : "Gemini API key is required" = m := Except.error.inj hg
          rw [← this] at hheadU
          exact absurd (Option.some.inj hheadU) (by decide)
        · intro hg; cases hg
      · have := OpenAiCompatibleProvider.construct_error_head
          (except_map_eq_error hm)
        rw [hheadU] at this
        rcases this with h2 | h2 <;> exact absurd (Option.some.inj h2) (by decide)
    · rcases h with rfl | rfl | rfl | rfl | rfl
      · exact ⟨_, rfl⟩
      · exact ⟨_, rfl⟩
      · exact ⟨_, rfl⟩
      · exact ⟨_, rfl⟩
      · exact ⟨_, rfl⟩

/-- Witness for C7: the unknown name `"foo"` is rejected with the
documented message and the known name `"openai"` yields a backend. -/
theorem createProvider_unsupported_names_witness :
    "foo" ∉ validProviderNames ∧
    createProvider urlParseModel (fun _ => none) "foo"
      { defaultProvider := "anthropic" } none =
      .error "Unsupported provider: foo. Supported: anthropic, openai, openrouter, gemini, openai-compatible" ∧
    "openai" ∈ validProviderNames ∧
    ∃ p, createProvider urlParseModel (fun _ => some "k") "openai"
      { defaultProvider := "anthropic" } none = .ok p :=
  ⟨by decide,
    (((createProvider_unsupported_names urlParseModel (fun _ => none) "foo"
      { defaultProvider := "anthropic" } none).1 (by decide)).1).trans (by decide),
    by decide,
    ((createProvider_unsupported_names urlParseModel (fun _ => none) "openai"
      { defaultProvider := "anthropic" } none).2 (by decide)).2⟩

/-- Counterexample to C5 as stated: resolving `"openai"` with no stored
endpoint (and the key available from the environment) yields a backend
whose client `baseURL` is `none` — the factory injects no compiled-in
default endpoint for `"openai"`, only for `"openrouter"`. -/
theorem createProvider_openai_no_default_endpoint :
    createProvider urlParseModel
      (fun v => if v = "OPENAI_API_KEY" then some "sk" else none)
      "openai" { defaultProvider := "anthropic" } none =
    .ok (.openaiCompat ⟨"openai", "gpt-4o", 7 / 10, 4096, "sk", none⟩) := rfl

/-- C5 amended: only `"openrouter"` gets a compiled-in default endpoint
(`https://openrouter.ai/api/v1`) injected when none is configured, with
a configured (truthy) endpoint preserved unchanged; for `"openai"` the
constructed backend's endpoint is exactly the stored one — nothing is
injected. -/
theorem createProvider_default_endpoint_injection
    (parse : String → URLParseResult) (env : String → Option String)
    (config : Config) (modelOverride : Option String) :
    (∀ q, createProvider parse env "openrouter" config modelOverride =
        .ok (.openaiCompat q) →
      q.clientBaseURL = some (jsOrStr
        (((config.providers).lookup "openrouter").getD {}).baseUrl
        "https://openrouter.ai/api/v1")) ∧
    ((((config.providers).lookup "openrouter").getD {}).baseUrl = none →
      ∀ q, createProvider parse env "openrouter" config modelOverride =
        .ok (.openaiCompat q) →
      q.clientBaseURL = some "https://openrouter.ai/api/v1") ∧
    (∀ u, (((config.providers).lookup "openrouter").getD {}).baseUrl = some u →
      u ≠ "" →
      ∀ q, createProvider parse env "openrouter" config modelOverride =
        .ok (.openaiCompat q) →
      q.clientBaseURL = some u) ∧
    (∀ q, createProvider parse env "openai" config modelOverride =
        .ok (.openaiCompat q) →
      q.clientBaseURL = (((config.providers).lookup "openai").getD {}).baseUrl) := by
  have hbr : ∀ q, createProvider parse env "openrouter" config modelOverride =
      .ok (.openaiCompat q) →
      q.clientBaseURL = some (jsOrStr
        (((config.providers).lookup "openrouter").getD {}).baseUrl
        "https://openrouter.ai/api/v1") := by
    intro q hq
    have hq2 : (OpenAiCompatibleProvider.construct parse "openrouter"
        { resolveProviderConfig env "openrouter" config modelOverride with
          baseUrl := some (jsOrStr
            (resolveProviderConfig env "openrouter" config modelOverride).baseUrl
            "https://openrouter.ai/api/v1") }).map Provider.openaiCompat =
        .ok (.openaiCompat q) := hq
    obtain ⟨a, ha, hfa⟩ := except_map_eq_ok hq2
    have haq : a = q := Provider.openaiCompat.inj hfa
    subst haq
    rw [OpenAiCompatibleProvider.construct_ok ha]
    rfl
  refine ⟨hbr, ?_, ?_, ?_⟩
  · intro hnone q hq
    have := hbr q hq
    rw [hnone] at this
    exact this
  · intro u hu hune q hq
    have := hbr q hq
    rw [hu] at this
    simpa [jsOrStr, hune] using this
  · intro q hq
    have hq2 : (OpenAiCompatibleProvider.construct parse "openai"
        (resolveProviderConfig env "openai" config modelOverride)).map
          Provider.openaiCompat = .ok (.openaiCompat q) := hq
    obtain ⟨a, ha, hfa⟩ := except_map_eq_ok hq2
    have haq : a = q := Provider.openaiCompat.inj hfa
    subst haq
    rw [OpenAiCompatibleProvider.construct_ok ha]
    rfl

/-- Witness for C5 (amended): with no stored endpoint, `"openrouter"`
resolves to the compiled-in default endpoint; with a stored endpoint it
keeps it; `"openai"` keeps `none`. -/
theorem createProvider_default_endpoint_injection_witness :
    createProvider urlParseModel (fun _ => some "k") "openrouter"
      { defaultProvider := "anthropic" } none =
      .ok (.openaiCompat ⟨"openrouter", "anthropic/claude-sonnet-4-5-20250929",
        7 / 10, 4096, "k", some "https://openrouter.ai/api/v1"⟩) ∧
    (⟨"openrouter", "anthropic/claude-sonnet-4-5-20250929", 7 / 10, 4096, "k",
        some "https://openrouter.ai/api/v1"⟩ : OpenAiCompatibleProvider).clientBaseURL =
      some "https://openrouter.ai/api/v1" ∧
    (⟨"openai", "gpt-4o", 7 / 10, 4096, "sk", none⟩ : OpenAiCompatibleProvider).clientBaseURL =
      none ∧
    (⟨"openrouter", "m", 7 / 10, 4096, "k", some "http://localhost:1234/v1"⟩ :
        OpenAiCompatibleProvider).clientBaseURL = some "http://localhost:1234/v1" :=
  ⟨rfl,
    ((createProvider_default_endpoint_injection urlParseModel (fun _ => some "k")
      { defaultProvider := "anthropic" } none).2.1 rfl _ rfl),
    ((createProvider_default_endpoint_injection urlParseModel
      (fun v => if v = "OPENAI_API_KEY" then some "sk" else none)
      { defaultProvider := "anthropic" } none).2.2.2 _ rfl),
    ((createProvider_default_endpoint_injection urlParseModel (fun _ => some "k")
      { defaultProvider := "anthropic",
        providers :=
          [("openrouter",
            { baseUrl := some "http://localhost:1234/v1", model := some "m" })] }
      none).2.2.1 "http://localhost:1234/v1" rfl
      (by decide) _ rfl)⟩

/-- C9: whenever the effective template — the per-call template if given,
else the configured default, else the built-in one — does not contain
the `$\x7buserInput\x7d` placeholder, `enhance` throws the documented
error, for every URL parser, environment and backend completion
function: no backend is resolved, constructed or invoked. -/
theorem enhance_requires_placeholder
    (parse : String → URLParseResult) (env : String → Option String)
    (complete : Provider → String → Except String String)
    (config : Config) (options : EnhanceOptions)
    (h : strContainsSubstr
      (jsOrStr options.template
        (jsOrStr ((config.templates).lookup "default") DEFAULT_ENHANCE_TEMPLATE))
      USER_INPUT_PLACEHOLDER = false) :
    EnhancementService.enhance parse env complete config options =
      .error templateErrorMsg := by
  simp [EnhancementService.enhance, h]

/-- Witness for C9: a per-call template without the placeholder is
rejected with the documented message. -/
theorem enhance_requires_placeholder_witness :
    strContainsSubstr
      (jsOrStr (some "no placeholder here")
        (jsOrStr ((([] : List (String × String))).lookup "default")
          DEFAULT_ENHANCE_TEMPLATE))
      USER_INPUT_PLACEHOLDER = false ∧
    EnhancementService.enhance urlParseModel (fun _ => none) (fun _ p => .ok p)
      { defaultProvider := "anthropic" }
      { text := "hi", template := some "no placeholder here" } =
      .error "Template must contain the $\x7buserInput\x7d placeholder" :=
  ⟨by decide,
    (enhance_requires_placeholder urlParseModel (fun _ => none) (fun _ p => .ok p)
      { defaultProvider := "anthropic" }
      { text := "hi", template := some "no placeholder here" } (by decide)).trans
      (by decide)⟩

/-- A replacement string containing no dollar sign is substituted
literally by `jsGetSubstitution`. -/
theorem jsGetSubstitution_no_dollar (matched before after : List Char) :
    ∀ rep : List Char, (∀ c ∈ rep, c ≠ '$') →
      jsGetSubstitution matched before after rep = rep := by
  intro rep
  induction rep with
  | nil => intro _; rfl
  | cons c rest ih =>
    intro h
    have hc : ¬ (c = '$') := h c (List.mem_cons_self c rest)
    unfold jsGetSubstitution
    rw [if_neg hc, ih (fun x hx => h x (List.mem_cons_of_mem c hx))]

/-- The scan of `jsReplaceFirstAux` on a subject `A ++ pat ++ B` whose
first `pat`-occurrence starts right after `A` (no occurrence fits in
`A ++ pat.dropLast`) replaces exactly that occurrence: the result is
`A ++ rep ++ B`, for a dollar-free replacement. -/
theorem jsReplaceFirstAux_first_occurrence (pat rep B : List Char)
    (hpat : pat ≠ []) (hrep : ∀ c ∈ rep, c ≠ '$') :
    ∀ (A : List Char), ¬ (pat <:+: A ++ pat.dropLast) →
      ∀ (full : List Char) (pos : Nat),
        jsReplaceFirstAux pat rep full (A ++ pat ++ B) pos = A ++ rep ++ B := by
  intro A
  induction A with
  | nil =>
    intro _ full pos
    have hpre : pat <+: [] ++ pat ++ B := by
      simp [List.prefix_append]
    unfold jsReplaceFirstAux
    rw [if_pos hpre, jsGetSubstitution_no_dollar _ _ _ rep hrep]
    simp [List.drop_left]
  | cons a A ih =>
    intro hno full pos
    have hnp : ¬ (pat <+: (a :: A) ++ pat ++ B) := by
      intro hp
      apply hno
      have hfronteq : (a :: A) ++ pat ++ B =
          ((a :: A) ++ pat.dropLast) ++ ([pat.getLast hpat] ++ B) := by
        conv_lhs => rw [← List.dropLast_append_getLast hpat]
        simp [List.append_assoc]
      have hfront : ((a :: A) ++ pat.dropLast) <+: ((a :: A) ++ pat ++ B) := by
        rw [hfronteq]
        exact List.prefix_append _ _
      have hlen : pat.length ≤ ((a :: A) ++ pat.dropLast).length := by
        have h1 : 1 ≤ pat.length := List.length_pos.mpr hpat
        simp [List.length_dropLast]
        omega
      exact List.IsPrefix.isInfix (List.prefix_of_prefix_length_le hp hfront hlen)
    have hconsA : (a :: A) ++ pat ++ B = a :: (A ++ pat ++ B) := by
      simp
    have hnoA : ¬ (pat <:+: A ++ pat.dropLast) := by
      intro h2
      exact hno (List.infix_cons h2)
    unfold jsReplaceFirstAux
    rw [if_neg hnp, hconsA]
    show a :: jsReplaceFirstAux pat rep full (A ++ pat ++ B) (pos + 1) =
      (a :: A) ++ rep ++ B
    rw [ih hnoA full (pos + 1)]
    simp

/-- Running `enhance` against the default Anthropic backend with an echo
completion returns exactly the substituted prompt: the prompt handed to
the backend is `jsReplaceFirst template placeholder input`. -/
theorem enhance_anthropic_echo (parse : String → URLParseResult)
    (env : String → Option String) (t input : String)
    (htne : t ≠ "")
    (hcontains : strContainsSubstr t USER_INPUT_PLACEHOLDER = true) :
    EnhancementService.enhance parse env (fun _ p => .ok p)
      { defaultProvider := "anthropic" }
      { text := input, template := some t } =
      .ok ⟨true, jsReplaceFirst t USER_INPUT_PLACEHOLDER input,
        "anthropic", "claude-sonnet-4-5-20250929"⟩ := by
  simp [EnhancementService.enhance, prepareInput, jsOrStr, htne, hcontains,
    createProvider, resolveProviderConfig, getApiKeyFromEnv, ENV_KEY_MAP,
    getDefaultModel, DEFAULT_MODELS, AnthropicProvider.construct, jsOrOpt,
    Provider.name, Provider.model]

/-- C10: for every template of the form `A ++ placeholder ++ B` whose
first placeholder occurrence is the displayed one, and every dollar-free
prepared input, the prompt handed to the backend is the template with
only that first occurrence replaced by the input — `A ++ input ++ B`,
with any later occurrences (inside `B`) left verbatim; and `enhance`
with an echoing backend indeed hands exactly that prompt over. -/
theorem enhance_prompt_first_occurrence_only (A B input : String)
    (hfirst : ¬ (USER_INPUT_PLACEHOLDER.data <:+:
      A.data ++ USER_INPUT_PLACEHOLDER.data.dropLast))
    (hdollar : ∀ c ∈ input.data, c ≠ '$') :
    jsReplaceFirst (A ++ USER_INPUT_PLACEHOLDER ++ B) USER_INPUT_PLACEHOLDER input =
      A ++ input ++ B ∧
    ∀ parse env,
      EnhancementService.enhance parse env (fun _ p => .ok p)
        { defaultProvider := "anthropic" }
        { text := input, template := some (A ++ USER_INPUT_PLACEHOLDER ++ B) } =
      .ok ⟨true, A ++ input ++ B, "anthropic", "claude-sonnet-4-5-20250929"⟩ := by
  have hdata : (A ++ USER_INPUT_PLACEHOLDER ++ B).data =
      A.data ++ USER_INPUT_PLACEHOLDER.data ++ B.data := by
    rw [str_data_append, str_data_append]
  have hout : (A ++ input ++ B).data = A.data ++ input.data ++ B.data := by
    rw [str_data_append, str_data_append]
  have hrep : jsReplaceFirst (A ++ USER_INPUT_PLACEHOLDER ++ B)
      USER_INPUT_PLACEHOLDER input = A ++ input ++ B := by
    unfold jsReplaceFirst
    rw [hdata,
      jsReplaceFirstAux_first_occurrence USER_INPUT_PLACEHOLDER.data input.data
        B.data (by decide) hdollar A.data hfirst _ 0,
      ← hout]
  have htne : (A ++ USER_INPUT_PLACEHOLDER ++ B) ≠ "" := by
    intro h
    have h3 := congrArg String.data h
    rw [hdata] at h3
    have h4 : ("" : String).data = [] := rfl
    rw [h4] at h3
    obtain ⟨h5, -⟩ := List.append_eq_nil.mp h3
    obtain ⟨-, h6⟩ := List.append_eq_nil.mp h5
    exact absurd h6 (by decide)
  have hcontains : strContainsSubstr (A ++ USER_INPUT_PLACEHOLDER ++ B)
      USER_INPUT_PLACEHOLDER = true := by
    unfold strContainsSubstr
    rw [decide_eq_true_eq, hdata]
    exact ⟨A.data, B.data, rfl⟩
  refine ⟨hrep, fun parse env => ?_⟩
  rw [enhance_anthropic_echo parse env _ input htne hcontains, hrep]

/-- Witness for C10: a template with a second placeholder occurrence in
its tail keeps that occurrence verbatim while the first is replaced,
both at the level of the substitution and through `enhance`. -/
theorem enhance_prompt_first_occurrence_only_witness :
    ¬ (USER_INPUT_PLACEHOLDER.data <:+:
      ("Rewrite: " : String).data ++ USER_INPUT_PLACEHOLDER.data.dropLast) ∧
    (∀ c ∈ ("hello world" : String).data, c ≠ '$') ∧
    jsReplaceFirst
      ("Rewrite: " ++ USER_INPUT_PLACEHOLDER ++ " then $\x7buserInput\x7d again")
      USER_INPUT_PLACEHOLDER "hello world" =
      "Rewrite: hello world then $\x7buserInput\x7d again" ∧
    EnhancementService.enhance urlParseModel (fun _ => none) (fun _ p => .ok p)
      { defaultProvider := "anthropic" }
      { text := "hello world",
        template := some
          ("Rewrite: " ++ USER_INPUT_PLACEHOLDER ++ " then $\x7buserInput\x7d again") } =
      .ok ⟨true, "Rewrite: hello world then $\x7buserInput\x7d again", "anthropic",
        "claude-sonnet-4-5-20250929"⟩ :=
  ⟨by decide, by decide,
    (enhance_prompt_first_occurrence_only "Rewrite: "
      " then $\x7buserInput\x7d again" "hello world" (by decide) (by decide)).1.trans
      (by decide),
    ((enhance_prompt_first_occurrence_only "Rewrite: "
      " then $\x7buserInput\x7d again" "hello world" (by decide) (by decide)).2
      urlParseModel (fun _ => none)).trans (by decide)⟩
